import Mathlib

/-!
A shallow embedding of src/main.rs of the shadey repository (a live
shader-preview tool).  The interactions of the program with the outside world
(inotify, the display driver, the filesystem, the GPU) are modelled by an
oracle environment that fixes the result of each fallible call; the
embedded functions mirror the source control flow line by line and emit a
trace of the externally visible actions in the order the source performs
them.  Machine effects:
  - `Result`-returning calls that the source maps with `map_err` become
    `RunResult.err msg` with the exact message string of the source;
  - calls the source `.unwrap()`s (vertex-buffer creation, program
    compilation, `target.finish()`) become `RunResult.panicked msg`,
    modelling the Rust panic that aborts the process;
  - Rust scope-exit drops of the session locals (texture, program, vertex
    buffer, display) at each `return` of `run_shader` are modelled by a
    final `Action.dropSessionResources` on every non-panicking exit path;
  - `fn main() -> ()` returning normally after `eprintln!` is modelled as
    process exit status 0, which is what the Rust runtime produces.
All numeric literals of the source that occur here (clear colour 1.0 and
the quad coordinates -1.0 / 0.0 / 1.0) are exactly representable in f32,
so they are carried as integers.
-/

namespace Shadey

/-- `ProgramStatus` of main.rs lines 40-44. -/
inductive ProgramStatus
  | Done
  | Reload
deriving DecidableEq, Repr

/-- A `glutin` window event as far as the source inspects it: either
`WindowEvent::Closed` or anything else (main.rs lines 141-151). -/
inductive WinEvent
  | closed
  | other
deriving DecidableEq, Repr

/-- An inotify event as far as the source inspects it: whether its mask
contains `event_mask::MODIFY` (main.rs line 159). -/
structure INEvent where
  hasModify : Bool
deriving DecidableEq, Repr

/-- Oracle for one iteration of the render loop: the outcome of the draw
call, of `target.finish()`, the window events drained by `poll_events`,
the outcome of `read_events`, and the inotify events it returns. -/
structure IterEnv where
  drawOk : Bool
  finishOk : Bool
  winEvents : List WinEvent
  readEventsOk : Bool
  fileEvents : List INEvent
deriving DecidableEq, Repr

/-- Oracle for one call of `run_shader`: the outcome of every fallible
external call it makes, in source order, plus the per-iteration oracles
for the render loop.  `watchImageOk = false` models in particular a
nonexistent image path, for which `inotify_add_watch` fails. -/
structure SessionEnv where
  inotifyInitOk : Bool
  watchImageOk : Bool
  watchShaderOk : Bool
  displayOk : Bool
  imageOpenOk : Bool
  textureOk : Bool
  vbufOk : Bool
  shaderOpenOk : Bool
  shaderReadOk : Bool
  programOk : Bool
  programDiag : String
  shaderSource : String
  iters : List IterEnv
deriving DecidableEq, Repr

/-- The two watched paths (main.rs lines 113-116). -/
inductive WatchedPath
  | image
  | shader
deriving DecidableEq, Repr

/-- `glium::index::PrimitiveType` as used at main.rs line 125. -/
inductive PrimitiveType
  | trianglesList
deriving DecidableEq, Repr

/-- `glium::index::NoIndices` as used at main.rs line 125. -/
inductive IndexSource
  | noIndices (p : PrimitiveType)
deriving DecidableEq, Repr

/-- Externally visible actions of the program, in the order the source
performs them.  Each action denotes the attempt of the call; when the
oracle makes the call fail, the action is still emitted and the failure
follows it. -/
inductive Action
  | inotifyInit
  | addWatch (p : WatchedPath)
  | createEventsLoop
  | createDisplay
  | loadImage
  | createTexture
  | createVertexBuffer (n : Nat)
  | readShaderFile
  | compileProgram
  | bindUniform (name : String)
  | clearColor (r g b a : Int)
  | draw (nVerts : Nat) (idx : IndexSource)
  | finishFrame
  | pollWindowEvents
  | readFileEvents
  | dropSessionResources
deriving DecidableEq, Repr

/-- Result of one `run_shader` call.  `running` marks that the finite
observed prefix of per-iteration oracles was exhausted with the loop
still going; no theorem below identifies it with any terminal outcome. -/
inductive RunResult
  | ok (s : ProgramStatus)
  | err (msg : String)
  | panicked (msg : String)
  | running
deriving DecidableEq, Repr

/-- `Vertex` of main.rs lines 46-50: 2D position plus 2D texture
coordinates, integer-valued in the source. -/
structure Vertex where
  position : Int × Int
  tex_coords : Int × Int
deriving DecidableEq, Repr

/-- `fullscreen()` of main.rs lines 90-100: the six vertices of the two
triangles covering the viewport. -/
def fullscreen : List Vertex :=
  [ ⟨(-1, -1), (0, 0)⟩, ⟨(-1, 1), (0, 1)⟩, ⟨(1, 1), (1, 1)⟩,
    ⟨(-1, -1), (0, 0)⟩, ⟨(1, 1), (1, 1)⟩, ⟨(1, -1), (1, 0)⟩ ]

/-- Panic payload of the `.unwrap()` at main.rs line 124. -/
def vbufPanicMsg : String :=
  "thread main panicked: unwrap on a vertex buffer creation error"

/-- Panic payload of the `.unwrap()` at main.rs line 139. -/
def finishPanicMsg : String :=
  "thread main panicked: unwrap on a swap buffers error"

/-- Panic payload of the `.unwrap()` at main.rs line 130, carrying the
compiler diagnostic of the rejected fragment shader. -/
def programPanicMsg (diag : String) : String :=
  "thread main panicked: unwrap on ProgramCreationError CompilationError " ++ diag

/-- `init_display` of main.rs lines 73-79, relative to the oracle. -/
def init_display (env : SessionEnv) : Except String Unit × List Action :=
  if env.displayOk then (Except.ok (), [Action.createDisplay])
  else (Except.error "Could not initialize the display.", [Action.createDisplay])

/-- `texture_from_path` of main.rs lines 81-88: opens and decodes the
image, then uploads it as a texture. -/
def texture_from_path (env : SessionEnv) : Except String Unit × List Action :=
  if env.imageOpenOk then
    if env.textureOk then (Except.ok (), [Action.loadImage, Action.createTexture])
    else (Except.error "Could not create texture from image.",
          [Action.loadImage, Action.createTexture])
  else (Except.error "Could not open file.", [Action.loadImage])

/-- `read_shader` of main.rs lines 102-108. -/
def read_shader (env : SessionEnv) : Except String String × List Action :=
  if env.shaderOpenOk then
    if env.shaderReadOk then (Except.ok env.shaderSource, [Action.readShaderFile])
    else (Except.error "Could not read shader file.", [Action.readShaderFile])
  else (Except.error "Could not open shader path.", [Action.readShaderFile])

/-- The test at main.rs line 144: is this event `WindowEvent::Closed`. -/
def isCloseEvent : WinEvent → Bool
  | WinEvent.closed => true
  | WinEvent.other => false

/-- The `poll_events` closure of main.rs lines 141-151 folded over the
drained events: a `Closed` event sets the flag, nothing clears it. -/
def drainClose (closed : Bool) : List WinEvent → Bool
  | [] => closed
  | e :: rest => drainClose (if isCloseEvent e then true else closed) rest

/-- The `for` loop test of main.rs lines 158-162: does some drained
inotify event have the MODIFY bit. -/
def hasModifyEvent (evs : List INEvent) : Bool :=
  evs.any (fun e => e.hasModify)

/-- Per-frame actions up to the draw call (main.rs lines 134-137):
uniforms with the sole entry named tex, clear to opaque white, draw the
quad as a non-indexed triangle list. -/
def frameActions : List Action :=
  [ Action.bindUniform "tex",
    Action.clearColor 1 1 1 1,
    Action.draw fullscreen.length (IndexSource.noIndices PrimitiveType.trianglesList) ]

/-- The full action list of one completed iteration (main.rs lines
134-156): frame, present, drain window events, read inotify events. -/
def iterTrace : List Action :=
  frameActions ++ [Action.finishFrame, Action.pollWindowEvents, Action.readFileEvents]

/-- The `while !closed` loop of main.rs lines 132-163, plus the
`Ok(ProgramStatus::Done)` return at line 165 (whose scope exit drops the
session resources).  The flag is consulted at the top of each iteration;
the body draws, presents, drains window events into the flag, then reads
the inotify events and returns `Reload` on the first MODIFY event. -/
def renderLoop : Bool → List IterEnv → RunResult × List Action
  | true, _ => (RunResult.ok ProgramStatus.Done, [Action.dropSessionResources])
  | false, [] => (RunResult.running, [])
  | false, it :: rest =>
    if it.drawOk then
      if it.finishOk then
        if it.readEventsOk then
          if hasModifyEvent it.fileEvents then
            (RunResult.ok ProgramStatus.Reload, iterTrace ++ [Action.dropSessionResources])
          else
            let next := renderLoop (drainClose false it.winEvents) rest
            (next.fst, iterTrace ++ next.snd)
        else
          (RunResult.err "Could not read inotify events.",
           iterTrace ++ [Action.dropSessionResources])
      else (RunResult.panicked finishPanicMsg, frameActions ++ [Action.finishFrame])
    else (RunResult.err "Could not draw shader.", frameActions ++ [Action.dropSessionResources])

/-- `run_shader` of main.rs lines 110-166, relative to the oracle.  The
control flow mirrors the source in order: inotify init (112), watch image
(113), watch shader (115), events loop (119), display (120), texture
(121), quad geometry and vertex buffer (122-124), shader read (129),
program compilation (130, unwrapped), then the render loop (132-163).
The fixed vertex shader at line 128 is a compile-time constant and has no
runtime effect.  Each non-panicking `return` drops the session locals. -/
def run_shader (env : SessionEnv) : RunResult × List Action :=
  if env.inotifyInitOk then
    if env.watchImageOk then
      if env.watchShaderOk then
        let t0 : List Action :=
          [Action.inotifyInit, Action.addWatch WatchedPath.image,
           Action.addWatch WatchedPath.shader, Action.createEventsLoop]
        match init_display env with
        | (Except.ok _, tD) =>
          match texture_from_path env with
          | (Except.ok _, tT) =>
            let t1 := t0 ++ tD ++ tT ++ [Action.createVertexBuffer fullscreen.length]
            if env.vbufOk then
              match read_shader env with
              | (Except.ok _, tS) =>
                let t2 := t1 ++ tS ++ [Action.compileProgram]
                if env.programOk then
                  let next := renderLoop false env.iters
                  (next.fst, t2 ++ next.snd)
                else (RunResult.panicked (programPanicMsg env.programDiag), t2)
              | (Except.error m, tS) =>
                (RunResult.err m, t1 ++ tS ++ [Action.dropSessionResources])
            else (RunResult.panicked vbufPanicMsg, t1)
          | (Except.error m, tT) =>
            (RunResult.err m, t0 ++ tD ++ tT ++ [Action.dropSessionResources])
        | (Except.error m, tD) =>
          (RunResult.err m, t0 ++ tD ++ [Action.dropSessionResources])
      else
        (RunResult.err "Could not add watch to shader file.",
         [Action.inotifyInit, Action.addWatch WatchedPath.image,
          Action.addWatch WatchedPath.shader, Action.dropSessionResources])
    else
      (RunResult.err "Could not add watch to image file.",
       [Action.inotifyInit, Action.addWatch WatchedPath.image,
        Action.dropSessionResources])
  else
    (RunResult.err "Failed to initialize an inotify.",
     [Action.inotifyInit, Action.dropSessionResources])

/-- How the process ends (or has not yet ended) in a run of `main`. -/
inductive ProcExit
  | exited (code : Nat)
  | aborted (msg : String)
  | stillRunning
  | fuelOut
deriving DecidableEq, Repr

/-- Observable result of a `main` run: how the process ended, the lines
printed to the error stream, and the action trace of each session in order. -/
structure ProcResult where
  exit : ProcExit
  stderrLines : List String
  sessionTraces : List (List Action)
deriving DecidableEq, Repr

/-- The `loop` of `main` (main.rs lines 58-70): run a session; on
`Ok(Done)` return from `main`, which is process exit status 0; on
`Ok(Reload)` loop again; on `Err(e)` print the prefixed message and
return from `main`, which is again process exit status 0; a panic aborts
the process with the panic payload on the error stream and a non-zero
status.  `fuel` bounds the number of sessions observed. -/
def mainLoop : Nat → (Nat → SessionEnv) → Nat → ProcResult
  | 0, _, _ => ⟨ProcExit.fuelOut, [], []⟩
  | fuel + 1, envs, i =>
    match run_shader (envs i) with
    | (RunResult.ok ProgramStatus.Done, tr) => ⟨ProcExit.exited 0, [], [tr]⟩
    | (RunResult.ok ProgramStatus.Reload, tr) =>
      let r := mainLoop fuel envs (i + 1)
      ⟨r.exit, r.stderrLines, tr :: r.sessionTraces⟩
    | (RunResult.err m, tr) => ⟨ProcExit.exited 0, ["Error: " ++ m], [tr]⟩
    | (RunResult.panicked m, tr) => ⟨ProcExit.aborted m, [m], [tr]⟩
    | (RunResult.running, tr) => ⟨ProcExit.stillRunning, [], [tr]⟩

/-- `main` of main.rs lines 53-71, with the i-th reload running against
the i-th session oracle. -/
def mainProgram (fuel : Nat) (envs : Nat → SessionEnv) : ProcResult :=
  mainLoop fuel envs 0

/-- The action trace of a whole `run_shader` call whose build succeeds,
up to the start of the render loop. -/
def buildTrace : List Action :=
  [Action.inotifyInit, Action.addWatch WatchedPath.image,
   Action.addWatch WatchedPath.shader, Action.createEventsLoop,
   Action.createDisplay, Action.loadImage, Action.createTexture,
   Action.createVertexBuffer fullscreen.length, Action.readShaderFile,
   Action.compileProgram]

/-- Every fallible call of the session succeeds up to and including
program compilation. -/
def SessionEnv.buildOk (env : SessionEnv) : Prop :=
  env.inotifyInitOk = true ∧ env.watchImageOk = true ∧ env.watchShaderOk = true ∧
  env.displayOk = true ∧ env.imageOpenOk = true ∧ env.textureOk = true ∧
  env.vbufOk = true ∧ env.shaderOpenOk = true ∧ env.shaderReadOk = true ∧
  env.programOk = true

/-- Occurrences of `createDisplay` in a trace. -/
def countCreateDisplay : List Action → Nat
  | [] => 0
  | Action.createDisplay :: rest => countCreateDisplay rest + 1
  | _ :: rest => countCreateDisplay rest

/-- An iteration oracle in which everything succeeds and nothing happens. -/
def okIter : IterEnv :=
  { drawOk := true, finishOk := true, winEvents := [], readEventsOk := true, fileEvents := [] }

/-- An iteration oracle in which one MODIFY inotify event is pending. -/
def modifyIter : IterEnv :=
  { okIter with fileEvents := [⟨true⟩] }

/-- An iteration oracle in which a window-close event is drained. -/
def closeIter : IterEnv :=
  { okIter with winEvents := [WinEvent.closed] }

/-- A session oracle in which everything succeeds. -/
def allOkEnv (iters : List IterEnv) : SessionEnv :=
  { inotifyInitOk := true, watchImageOk := true, watchShaderOk := true,
    displayOk := true, imageOpenOk := true, textureOk := true, vbufOk := true,
    shaderOpenOk := true, shaderReadOk := true, programOk := true,
    programDiag := "", shaderSource := "frag src", iters := iters }

/-- Is the result a returned error value (as opposed to a success, a
panic, or a still-running loop). -/
def isErrResult : RunResult → Bool
  | RunResult.err _ => true
  | _ => false

/-- An iteration in which a window-close event and a MODIFY file event
are both observed. -/
def pendingIter : IterEnv :=
  { okIter with winEvents := [WinEvent.closed], fileEvents := [⟨true⟩] }

/-- An iteration in which `target.finish()` fails. -/
def finishFailIter : IterEnv :=
  { okIter with finishOk := false }

/-- An iteration whose inotify batch buffers several MODIFY events. -/
def multiModifyIter : IterEnv :=
  { okIter with fileEvents := [⟨true⟩, ⟨true⟩, ⟨false⟩] }

/-- A session oracle for a fragment shader the driver rejects. -/
def c1Env : SessionEnv :=
  { allOkEnv [] with
    programOk := false,
    programDiag := "0:1: error: syntax error, unexpected IDENTIFIER" }

/-- A session whose first iteration observes both a close and a MODIFY
event. -/
def c2Env : SessionEnv := allOkEnv [pendingIter]

/-- Process oracle: the close-and-modify session, then a session closed
by the user. -/
def c2Envs : Nat → SessionEnv := fun n => if n = 0 then c2Env else allOkEnv [closeIter]

/-- A session whose shader file cannot be opened. -/
def c3ErrEnv : SessionEnv := { allOkEnv [] with shaderOpenOk := false }

/-- A session ended by the user closing the window. -/
def c3CloseEnv : SessionEnv := allOkEnv [closeIter]

/-- Process oracle: a file change triggers a reload, then the user
closes the window. -/
def c4Envs : Nat → SessionEnv :=
  fun n => if n = 0 then allOkEnv [modifyIter] else allOkEnv [closeIter]

/-- A session whose image path does not exist: inotify cannot add the
watch and the image could not have been opened either. -/
def c5Env : SessionEnv := { allOkEnv [] with watchImageOk := false, imageOpenOk := false }

/-- A rebuild session in which the edited shader no longer compiles. -/
def c6BadRebuildEnv : SessionEnv :=
  { allOkEnv [] with
    programOk := false,
    programDiag := "0:12: error: no matching overloaded function found" }

/-- Process oracle: a file change triggers a reload and the rebuilt
shader fails to compile. -/
def c6Envs : Nat → SessionEnv :=
  fun n => if n = 0 then allOkEnv [modifyIter] else c6BadRebuildEnv

/-- A session ended by the user closing the window. -/
def c7Env : SessionEnv := allOkEnv [closeIter]

/-- A session whose first iteration buffers several MODIFY events. -/
def c8Env : SessionEnv := allOkEnv [multiModifyIter]

/-- A session started while a close request and a file modification are
already pending. -/
def c9Env : SessionEnv := allOkEnv [pendingIter]

/-- A session in which vertex-buffer creation fails. -/
def c10VbufEnv : SessionEnv := { allOkEnv [] with vbufOk := false }

/-- A session in which presenting the first frame fails. -/
def c10FinishEnv : SessionEnv := allOkEnv [finishFailIter]

/-- Does a printed line carry the `Error:` prefix that main.rs line 66
puts on every returned error (checked on the character list, which the
kernel can evaluate). -/
def errorPrefixed (l : String) : Bool :=
  List.isPrefixOf ("Error: ".data) l.data

/-- Once the closed flag is set, draining further window events never
clears it. -/
lemma drainClose_of_true (evs : List WinEvent) : drainClose true evs = true := by
  induction evs with
  | nil => rfl
  | cons e rest ih =>
    cases e <;> simpa [drainClose, isCloseEvent] using ih

/-- Draining a batch of window events that contains a close event sets
the closed flag. -/
lemma drainClose_true_of_mem (evs : List WinEvent) (c : Bool)
    (h : WinEvent.closed ∈ evs) : drainClose c evs = true := by
  induction evs generalizing c with
  | nil => cases h
  | cons e rest ih =>
    cases h with
    | head => simpa [drainClose, isCloseEvent] using drainClose_of_true rest
    | tail _ hm => cases e <;> simp [drainClose, isCloseEvent] <;> exact ih _ hm

/-- When every build step succeeds, `run_shader` performs the whole build
trace and then behaves as the render loop started with the closed flag
clear. -/
lemma run_shader_buildOk (env : SessionEnv) (hB : env.buildOk) :
    run_shader env =
      ((renderLoop false env.iters).fst,
       buildTrace ++ (renderLoop false env.iters).snd) := by
  obtain ⟨h1, h2, h3, h4, h5, h6, h7, h8, h9, h10⟩ := hB
  simp [run_shader, init_display, texture_from_path, read_shader, buildTrace,
        h1, h2, h3, h4, h5, h6, h7, h8, h9, h10]

/-- A fully successful iteration whose inotify batch contains a MODIFY
event ends the session with `Reload` at once. -/
lemma renderLoop_cons_reload (it : IterEnv) (rest : List IterEnv)
    (hd : it.drawOk = true) (hf : it.finishOk = true)
    (hr : it.readEventsOk = true) (hm : hasModifyEvent it.fileEvents = true) :
    renderLoop false (it :: rest) =
      (RunResult.ok ProgramStatus.Reload, iterTrace ++ [Action.dropSessionResources]) := by
  simp [renderLoop, hd, hf, hr, hm]

/-- A fully successful iteration with no MODIFY event performs one full
frame plus both polls and continues with the flag produced by the
drained window events. -/
lemma renderLoop_cons_step (it : IterEnv) (rest : List IterEnv)
    (hd : it.drawOk = true) (hf : it.finishOk = true)
    (hr : it.readEventsOk = true) (hm : hasModifyEvent it.fileEvents = false) :
    renderLoop false (it :: rest) =
      ((renderLoop (drainClose false it.winEvents) rest).fst,
       iterTrace ++ (renderLoop (drainClose false it.winEvents) rest).snd) := by
  simp [renderLoop, hd, hf, hr, hm]

/-- A session whose build succeeds and whose first iteration sees a
MODIFY event returns `Reload` after exactly one frame. -/
lemma run_shader_first_iter_reload (env : SessionEnv) (it : IterEnv)
    (rest : List IterEnv) (hB : env.buildOk) (hi : env.iters = it :: rest)
    (hd : it.drawOk = true) (hf : it.finishOk = true)
    (hr : it.readEventsOk = true) (hm : hasModifyEvent it.fileEvents = true) :
    run_shader env =
      (RunResult.ok ProgramStatus.Reload,
       buildTrace ++ iterTrace ++ [Action.dropSessionResources]) := by
  rw [run_shader_buildOk env hB, hi, renderLoop_cons_reload it rest hd hf hr hm]
  simp

/-- A session whose build succeeds and whose first iteration drains a
close event (and no MODIFY event) returns `Done` at the top of the next
iteration, after one full frame. -/
lemma run_shader_first_iter_done (env : SessionEnv) (it : IterEnv)
    (rest : List IterEnv) (hB : env.buildOk) (hi : env.iters = it :: rest)
    (hd : it.drawOk = true) (hf : it.finishOk = true)
    (hr : it.readEventsOk = true) (hm : hasModifyEvent it.fileEvents = false)
    (hc : WinEvent.closed ∈ it.winEvents) :
    run_shader env =
      (RunResult.ok ProgramStatus.Done,
       buildTrace ++ iterTrace ++ [Action.dropSessionResources]) := by
  rw [run_shader_buildOk env hB, hi, renderLoop_cons_step it rest hd hf hr hm,
      drainClose_true_of_mem it.winEvents false hc]
  simp [renderLoop]

/-- With one unit of fuel, `mainLoop` records exactly one session trace,
whatever the session outcome. -/
lemma mainLoop_one_traces (envs : Nat -> SessionEnv) (i : Nat) :
    (mainLoop 1 envs i).sessionTraces.length = 1 := by
  cases h : run_shader (envs i) with
  | mk r tr =>
    cases r with
    | ok s => cases s <;> simp [mainLoop, h]
    | err m => simp [mainLoop, h]
    | panicked m => simp [mainLoop, h]
    | running => simp [mainLoop, h]

set_option maxRecDepth 16384 in
/-- Claim C1.  The claim says a rejected fragment shader makes resource
construction fail with a `ShaderCompileError` that is reported, the
controller moving to Stopped with a non-zero exit and the process never
panicking.  On the code (main.rs line 130, `Program::from_source(...)
.unwrap()`), a rejected shader makes the process panic: the session
yields a panic rather than a returned error, the abort carries the
compiler diagnostic, and no prefixed error line is ever printed. -/
theorem C1_shader_compile_failure_panics :
    run_shader c1Env =
      (RunResult.panicked
        (programPanicMsg "0:1: error: syntax error, unexpected IDENTIFIER"),
       buildTrace) ∧
    isErrResult (run_shader c1Env).fst = false ∧
    (mainProgram 1 (fun _ => c1Env)).exit =
      ProcExit.aborted
        (programPanicMsg "0:1: error: syntax error, unexpected IDENTIFIER") ∧
    ((mainProgram 1 (fun _ => c1Env)).stderrLines.all
      (fun l => !(errorPrefixed l))) = true := by
  decide

/-- Claim C2, counterexample.  In a session whose single observed
iteration drains a window-close event and also reads a MODIFY file
event, the session outcome is `Reload`, not `Done`: close does not take
precedence in the code, because the MODIFY check at main.rs lines
158-162 returns before the loop condition re-examines the closed flag. -/
theorem C2_close_and_modify_counterexample :
    WinEvent.closed ∈ pendingIter.winEvents ∧
    hasModifyEvent pendingIter.fileEvents = true ∧
    c2Env.iters = [pendingIter] ∧
    (run_shader c2Env).fst = RunResult.ok ProgramStatus.Reload ∧
    (run_shader c2Env).fst ≠ RunResult.ok ProgramStatus.Done := by
  decide

/-- Claim C2, amended.  If a window-close event and a MODIFY event of a
watched file are both observed in the same render-loop iteration, the
session ends with outcome `Reload` (the file change takes precedence
over the close), and `main` then starts a second session instead of
exiting. -/
theorem C2_file_change_takes_precedence (envs : Nat → SessionEnv)
    (it : IterEnv) (rest : List IterEnv)
    (hB : (envs 0).buildOk) (hi : (envs 0).iters = it :: rest)
    (hd : it.drawOk = true) (hf : it.finishOk = true)
    (hr : it.readEventsOk = true)
    (hc : WinEvent.closed ∈ it.winEvents)
    (hm : hasModifyEvent it.fileEvents = true) :
    (run_shader (envs 0)).fst = RunResult.ok ProgramStatus.Reload ∧
    (mainProgram 2 envs).sessionTraces.length = 2 := by
  have h := run_shader_first_iter_reload (envs 0) it rest hB hi hd hf hr hm
  constructor
  · rw [h]
  · rcases h1 : run_shader (envs 1) with ⟨r1, t1⟩
    cases r1 with
    | ok s => cases s <;> simp [mainProgram, mainLoop, h, h1]
    | err m => simp [mainProgram, mainLoop, h, h1]
    | panicked m => simp [mainProgram, mainLoop, h, h1]
    | running => simp [mainProgram, mainLoop, h, h1]

/-- Claim C2, witness for the amended theorem at a concrete input. -/
theorem C2_file_change_takes_precedence_witness :
    (run_shader (c2Envs 0)).fst = RunResult.ok ProgramStatus.Reload ∧
    (mainProgram 2 c2Envs).sessionTraces.length = 2 :=
  C2_file_change_takes_precedence c2Envs pendingIter []
    ⟨rfl, rfl, rfl, rfl, rfl, rfl, rfl, rfl, rfl, rfl⟩ rfl rfl rfl rfl
    (by decide) rfl

/-- Claim C3.  The claim says the process exits 0 exactly on user window
close and non-zero on every fatal error.  On the code (main.rs lines
65-68), an error is printed with the `Error:` prefix but `main` then
returns normally, so the process exit status is 0 on the error paths as
well: shown here for an unreadable shader path, together with the
(true) status-0-on-close half. -/
theorem C3_fatal_error_exits_with_status_zero :
    (mainProgram 1 (fun _ => c3ErrEnv)).exit = ProcExit.exited 0 ∧
    (mainProgram 1 (fun _ => c3ErrEnv)).stderrLines =
      ["Error: Could not open shader path."] ∧
    (mainProgram 1 (fun _ => c3CloseEnv)).exit = ProcExit.exited 0 ∧
    (mainProgram 1 (fun _ => c3CloseEnv)).stderrLines = [] := by
  decide

/-- Claim C4, counterexample.  In a process run with one reload (a file
change, then a user close), the global action trace contains two
`createDisplay` actions: the display/window is created again after the
reload, because main.rs lines 119-120 are inside `run_shader`, which
`main` re-runs on every `Reload`.  This falsifies the claim that the
display is created only once per process run. -/
theorem C4_display_recreated_counterexample :
    countCreateDisplay ((mainProgram 2 c4Envs).sessionTraces.flatten) = 2 ∧
    (mainProgram 2 c4Envs).exit = ProcExit.exited 0 := by
  decide

/-- Claim C4, amended.  The display/window is created once per session,
not once per process: a reload returns from `run_shader` and `main`
calls it again, so each session (including the one started by the
reload) performs its own `createEventsLoop`/`createDisplay`; a process
run with one reload creates the display twice. -/
theorem C4_display_created_once_per_session (envs : Nat → SessionEnv)
    (it0 it1 : IterEnv) (r0 r1 : List IterEnv)
    (hB0 : (envs 0).buildOk) (hi0 : (envs 0).iters = it0 :: r0)
    (h0d : it0.drawOk = true) (h0f : it0.finishOk = true)
    (h0r : it0.readEventsOk = true) (h0m : hasModifyEvent it0.fileEvents = true)
    (hB1 : (envs 1).buildOk) (hi1 : (envs 1).iters = it1 :: r1)
    (h1d : it1.drawOk = true) (h1f : it1.finishOk = true)
    (h1r : it1.readEventsOk = true) (h1m : hasModifyEvent it1.fileEvents = false)
    (h1c : WinEvent.closed ∈ it1.winEvents) :
    (mainProgram 2 envs).sessionTraces =
      [buildTrace ++ iterTrace ++ [Action.dropSessionResources],
       buildTrace ++ iterTrace ++ [Action.dropSessionResources]] ∧
    countCreateDisplay ((mainProgram 2 envs).sessionTraces.flatten) = 2 := by
  have h0 := run_shader_first_iter_reload (envs 0) it0 r0 hB0 hi0 h0d h0f h0r h0m
  have h1 := run_shader_first_iter_done (envs 1) it1 r1 hB1 hi1 h1d h1f h1r h1m h1c
  have hm : (mainProgram 2 envs).sessionTraces =
      [buildTrace ++ iterTrace ++ [Action.dropSessionResources],
       buildTrace ++ iterTrace ++ [Action.dropSessionResources]] := by
    simp [mainProgram, mainLoop, h0, h1]
  refine ⟨hm, ?_⟩
  rw [hm]
  decide

/-- Claim C4, witness for the amended theorem at a concrete input. -/
theorem C4_display_created_once_per_session_witness :
    (mainProgram 2 c4Envs).sessionTraces =
      [buildTrace ++ iterTrace ++ [Action.dropSessionResources],
       buildTrace ++ iterTrace ++ [Action.dropSessionResources]] ∧
    countCreateDisplay ((mainProgram 2 c4Envs).sessionTraces.flatten) = 2 :=
  C4_display_created_once_per_session c4Envs modifyIter closeIter [] []
    ⟨rfl, rfl, rfl, rfl, rfl, rfl, rfl, rfl, rfl, rfl⟩ rfl rfl rfl rfl rfl
    ⟨rfl, rfl, rfl, rfl, rfl, rfl, rfl, rfl, rfl, rfl⟩ rfl rfl rfl rfl rfl
    (by decide)

/-- Claim C5, counterexample.  With a nonexistent image path the first
failing call is `add_watch` on the image (main.rs line 113), before any
window exists: the reported message is the watch-add one, not the
image-load one the claim requires, and the process exit status is 0,
not the non-zero status the claim requires. -/
theorem C5_missing_image_counterexample :
    (mainProgram 1 (fun _ => c5Env)).stderrLines =
      ["Error: Could not add watch to image file."] ∧
    (mainProgram 1 (fun _ => c5Env)).stderrLines ≠
      ["Error: Could not open file."] ∧
    (mainProgram 1 (fun _ => c5Env)).exit = ProcExit.exited 0 := by
  decide

/-- Claim C5, amended.  If the image path does not exist at startup,
`add_watch` on it fails first: the session ends with the watch-add
error before any window-creation action, `main` prints the prefixed
message on the error stream, and the process exits with status 0. -/
theorem C5_missing_image_fails_at_watch (env : SessionEnv)
    (hI : env.inotifyInitOk = true) (hW : env.watchImageOk = false) :
    run_shader env =
      (RunResult.err "Could not add watch to image file.",
       [Action.inotifyInit, Action.addWatch WatchedPath.image,
        Action.dropSessionResources]) ∧
    Action.createDisplay ∉ (run_shader env).snd ∧
    (mainProgram 1 (fun _ => env)).exit = ProcExit.exited 0 ∧
    (mainProgram 1 (fun _ => env)).stderrLines =
      ["Error: Could not add watch to image file."] := by
  have h : run_shader env =
      (RunResult.err "Could not add watch to image file.",
       [Action.inotifyInit, Action.addWatch WatchedPath.image,
        Action.dropSessionResources]) := by
    simp [run_shader, hI, hW]
  refine ⟨h, ?_, ?_, ?_⟩
  · rw [h]
    decide
  · simp [mainProgram, mainLoop, h]
  · simp [mainProgram, mainLoop, h]

/-- Claim C5, witness for the amended theorem at a concrete input. -/
theorem C5_missing_image_fails_at_watch_witness :
    run_shader c5Env =
      (RunResult.err "Could not add watch to image file.",
       [Action.inotifyInit, Action.addWatch WatchedPath.image,
        Action.dropSessionResources]) ∧
    Action.createDisplay ∉ (run_shader c5Env).snd ∧
    (mainProgram 1 (fun _ => c5Env)).exit = ProcExit.exited 0 ∧
    (mainProgram 1 (fun _ => c5Env)).stderrLines =
      ["Error: Could not add watch to image file."] :=
  C5_missing_image_fails_at_watch c5Env rfl rfl

/-- Claim C6, counterexample.  A reload followed by a failing rebuild:
the first session ends with `dropSessionResources` (the old RenderLoop
and its GPU resources are released when `run_shader` returns `Reload`),
and only afterwards does the second session run its build, which stops
at `compileProgram` with a panic.  The old resources are therefore
discarded before the new build attempt, not only after it completes
successfully, falsifying the claim as stated; the second session indeed
never draws. -/
theorem C6_drop_before_rebuild_counterexample :
    (mainProgram 2 c6Envs).sessionTraces =
      [buildTrace ++ iterTrace ++ [Action.dropSessionResources], buildTrace] ∧
    (mainProgram 2 c6Envs).exit =
      ProcExit.aborted
        (programPanicMsg "0:12: error: no matching overloaded function found") := by
  decide

/-- Claim C6, amended.  On a reload the resources of the previous session
are discarded when `run_shader` returns, before the new build attempt
begins; the rest of the claim holds: no frame is ever presented from a
broken program, because a session whose shader fails to compile stops
inside the build, its trace containing neither a draw nor a present
action, and the process aborts before any further session. -/
theorem C6_drop_at_session_end_no_draw_after_failed_rebuild
    (envs : Nat → SessionEnv) (it0 : IterEnv) (r0 : List IterEnv)
    (hB0 : (envs 0).buildOk) (hi0 : (envs 0).iters = it0 :: r0)
    (h0d : it0.drawOk = true) (h0f : it0.finishOk = true)
    (h0r : it0.readEventsOk = true) (h0m : hasModifyEvent it0.fileEvents = true)
    (h1a : (envs 1).inotifyInitOk = true) (h1b : (envs 1).watchImageOk = true)
    (h1c : (envs 1).watchShaderOk = true) (h1e : (envs 1).displayOk = true)
    (h1i : (envs 1).imageOpenOk = true) (h1t : (envs 1).textureOk = true)
    (h1v : (envs 1).vbufOk = true) (h1s : (envs 1).shaderOpenOk = true)
    (h1r : (envs 1).shaderReadOk = true) (h1p : (envs 1).programOk = false) :
    (mainProgram 2 envs).sessionTraces =
      [buildTrace ++ iterTrace ++ [Action.dropSessionResources], buildTrace] ∧
    Action.draw fullscreen.length
      (IndexSource.noIndices PrimitiveType.trianglesList) ∉ buildTrace ∧
    Action.finishFrame ∉ buildTrace ∧
    (mainProgram 2 envs).exit =
      ProcExit.aborted (programPanicMsg (envs 1).programDiag) := by
  have h0 := run_shader_first_iter_reload (envs 0) it0 r0 hB0 hi0 h0d h0f h0r h0m
  have h1 : run_shader (envs 1) =
      (RunResult.panicked (programPanicMsg (envs 1).programDiag), buildTrace) := by
    simp [run_shader, init_display, texture_from_path, read_shader, buildTrace,
          h1a, h1b, h1c, h1e, h1i, h1t, h1v, h1s, h1r, h1p]
  refine ⟨?_, by decide, by decide, ?_⟩
  · simp [mainProgram, mainLoop, h0, h1]
  · simp [mainProgram, mainLoop, h0, h1]

/-- Claim C6, witness for the amended theorem at a concrete input. -/
theorem C6_drop_at_session_end_no_draw_witness :
    (mainProgram 2 c6Envs).sessionTraces =
      [buildTrace ++ iterTrace ++ [Action.dropSessionResources], buildTrace] ∧
    Action.draw fullscreen.length
      (IndexSource.noIndices PrimitiveType.trianglesList) ∉ buildTrace ∧
    Action.finishFrame ∉ buildTrace ∧
    (mainProgram 2 c6Envs).exit =
      ProcExit.aborted (programPanicMsg (c6Envs 1).programDiag) :=
  C6_drop_at_session_end_no_draw_after_failed_rebuild c6Envs modifyIter []
    ⟨rfl, rfl, rfl, rfl, rfl, rfl, rfl, rfl, rfl, rfl⟩ rfl rfl rfl rfl rfl
    rfl rfl rfl rfl rfl rfl rfl rfl rfl rfl

/-- Claim C7.  A fully successful iteration performs, in this order:
bind the texture as the sole uniform named tex, clear the framebuffer
to opaque white (1,1,1,1), draw the six-vertex quad as a non-indexed
triangle list, present the frame, drain the window events, then poll
the file watcher; a close event drained during the iteration only sets
the flag (the present has already happened) and is observed at the top
of the next iteration, which ends the session with `Done`.  The first
conjunct shows the close-containing iteration still completing in full;
the last conjunct gives the per-iteration order for every iteration. -/
theorem C7_frame_order (env : SessionEnv) (it : IterEnv) (rest : List IterEnv)
    (hB : env.buildOk) (hi : env.iters = it :: rest)
    (hd : it.drawOk = true) (hf : it.finishOk = true)
    (hr : it.readEventsOk = true) (hm : hasModifyEvent it.fileEvents = false)
    (hc : WinEvent.closed ∈ it.winEvents) :
    run_shader env =
      (RunResult.ok ProgramStatus.Done,
       buildTrace ++
        ([Action.bindUniform "tex", Action.clearColor 1 1 1 1,
          Action.draw 6 (IndexSource.noIndices PrimitiveType.trianglesList),
          Action.finishFrame, Action.pollWindowEvents, Action.readFileEvents] ++
         [Action.dropSessionResources])) ∧
    fullscreen.length = 6 ∧
    (∀ (it' : IterEnv) (rest' : List IterEnv), it'.drawOk = true →
      it'.finishOk = true → it'.readEventsOk = true →
      hasModifyEvent it'.fileEvents = false →
      renderLoop false (it' :: rest') =
        ((renderLoop (drainClose false it'.winEvents) rest').fst,
         [Action.bindUniform "tex", Action.clearColor 1 1 1 1,
          Action.draw 6 (IndexSource.noIndices PrimitiveType.trianglesList),
          Action.finishFrame, Action.pollWindowEvents, Action.readFileEvents] ++
         (renderLoop (drainClose false it'.winEvents) rest').snd)) := by
  refine ⟨?_, rfl, ?_⟩
  · have h := run_shader_first_iter_done env it rest hB hi hd hf hr hm hc
    rw [h]
    simp [iterTrace, frameActions, fullscreen]
  · intro it' rest' hd' hf' hr' hm'
    rw [renderLoop_cons_step it' rest' hd' hf' hr' hm']
    simp [iterTrace, frameActions, fullscreen]

/-- Claim C7, witness at a concrete input (the quantified conjunct is
instantiated by the other two). -/
theorem C7_frame_order_witness :
    run_shader c7Env =
      (RunResult.ok ProgramStatus.Done,
       buildTrace ++
        ([Action.bindUniform "tex", Action.clearColor 1 1 1 1,
          Action.draw 6 (IndexSource.noIndices PrimitiveType.trianglesList),
          Action.finishFrame, Action.pollWindowEvents, Action.readFileEvents] ++
         [Action.dropSessionResources])) ∧
    fullscreen.length = 6 :=
  ⟨(C7_frame_order c7Env closeIter []
      ⟨rfl, rfl, rfl, rfl, rfl, rfl, rfl, rfl, rfl, rfl⟩ rfl rfl rfl rfl rfl
      (by decide)).1,
   (C7_frame_order c7Env closeIter []
      ⟨rfl, rfl, rfl, rfl, rfl, rfl, rfl, rfl, rfl, rfl⟩ rfl rfl rfl rfl rfl
      (by decide)).2.1⟩

/-- Claim C8.  A MODIFY event on a watched file read during an
iteration ends the session in that same iteration with the single
outcome `Reload`: the whole session trace is the build, exactly one
frame, and the session teardown, whatever the number of buffered MODIFY
events in the batch (the source returns on the first one) and whatever
later iterations would have held. -/
theorem C8_modify_single_reload (env : SessionEnv) (it : IterEnv)
    (rest : List IterEnv) (hB : env.buildOk) (hi : env.iters = it :: rest)
    (hd : it.drawOk = true) (hf : it.finishOk = true)
    (hr : it.readEventsOk = true) (hm : hasModifyEvent it.fileEvents = true) :
    run_shader env =
      (RunResult.ok ProgramStatus.Reload,
       buildTrace ++ iterTrace ++ [Action.dropSessionResources]) :=
  run_shader_first_iter_reload env it rest hB hi hd hf hr hm

/-- Claim C8, witness: three buffered inotify events, two of them
MODIFY, still produce exactly one `Reload` outcome. -/
theorem C8_modify_single_reload_witness :
    run_shader c8Env =
      (RunResult.ok ProgramStatus.Reload,
       buildTrace ++ iterTrace ++ [Action.dropSessionResources]) :=
  C8_modify_single_reload c8Env multiModifyIter []
    ⟨rfl, rfl, rfl, rfl, rfl, rfl, rfl, rfl, rfl, rfl⟩ rfl rfl rfl rfl rfl

/-- Claim C9.  In every session whose build succeeds and whose first
frame is accepted by the driver, the trace starts with the build
followed by one complete frame (bind, clear, draw, present) before the
first `pollWindowEvents`/`readFileEvents`; neither poll occurs during
the build, so events pending when the session starts (a close request
or a file modification) are only observed after that first frame. -/
theorem C9_first_frame_before_event_checks (env : SessionEnv) (it : IterEnv)
    (rest : List IterEnv) (hB : env.buildOk) (hi : env.iters = it :: rest)
    (hd : it.drawOk = true) (hf : it.finishOk = true) :
    (∃ r t, run_shader env =
      (r, buildTrace ++
        ([Action.bindUniform "tex", Action.clearColor 1 1 1 1,
          Action.draw 6 (IndexSource.noIndices PrimitiveType.trianglesList),
          Action.finishFrame, Action.pollWindowEvents, Action.readFileEvents] ++
         t))) ∧
    Action.pollWindowEvents ∉ buildTrace ∧
    Action.readFileEvents ∉ buildTrace := by
  refine ⟨?_, by decide, by decide⟩
  rw [run_shader_buildOk env hB, hi]
  cases hre : it.readEventsOk with
  | false =>
    exact ⟨RunResult.err "Could not read inotify events.",
           [Action.dropSessionResources],
           by simp [renderLoop, hd, hf, hre, iterTrace, frameActions, fullscreen]⟩
  | true =>
    cases hmod : hasModifyEvent it.fileEvents with
    | true =>
      exact ⟨RunResult.ok ProgramStatus.Reload, [Action.dropSessionResources],
             by simp [renderLoop, hd, hf, hre, hmod, iterTrace, frameActions,
                      fullscreen]⟩
    | false =>
      exact ⟨(renderLoop (drainClose false it.winEvents) rest).fst,
             (renderLoop (drainClose false it.winEvents) rest).snd,
             by simp [renderLoop, hd, hf, hre, hmod, iterTrace, frameActions,
                      fullscreen]⟩

/-- Claim C9, witness: a session started while a close request and a
file modification are both already pending still executes a full frame
before either is observed. -/
theorem C9_first_frame_before_event_checks_witness :
    (∃ r t, run_shader c9Env =
      (r, buildTrace ++
        ([Action.bindUniform "tex", Action.clearColor 1 1 1 1,
          Action.draw 6 (IndexSource.noIndices PrimitiveType.trianglesList),
          Action.finishFrame, Action.pollWindowEvents, Action.readFileEvents] ++
         t))) ∧
    Action.pollWindowEvents ∉ buildTrace ∧
    Action.readFileEvents ∉ buildTrace :=
  C9_first_frame_before_event_checks c9Env pendingIter []
    ⟨rfl, rfl, rfl, rfl, rfl, rfl, rfl, rfl, rfl, rfl⟩ rfl rfl rfl

/-- Claim C10.  Vertex-buffer creation failure (main.rs line 124) and
presentation failure (`target.finish()`, main.rs line 139) go through
`.unwrap()` rather than the error return of the function: the session result
is a panic, the process aborts, and the error stream carries no line
with the `Error:` prefix that every returned error receives. -/
theorem C10_unwrap_failures_abort_unprefixed :
    (∀ env : SessionEnv, env.inotifyInitOk = true → env.watchImageOk = true →
      env.watchShaderOk = true → env.displayOk = true →
      env.imageOpenOk = true → env.textureOk = true → env.vbufOk = false →
      (run_shader env).fst = RunResult.panicked vbufPanicMsg ∧
      (mainProgram 1 (fun _ => env)).exit = ProcExit.aborted vbufPanicMsg ∧
      ((mainProgram 1 (fun _ => env)).stderrLines.all
        (fun l => !(errorPrefixed l))) = true) ∧
    (∀ (env : SessionEnv) (it : IterEnv) (rest : List IterEnv), env.buildOk →
      env.iters = it :: rest → it.drawOk = true → it.finishOk = false →
      (run_shader env).fst = RunResult.panicked finishPanicMsg ∧
      (mainProgram 1 (fun _ => env)).exit = ProcExit.aborted finishPanicMsg ∧
      ((mainProgram 1 (fun _ => env)).stderrLines.all
        (fun l => !(errorPrefixed l))) = true) := by
  constructor
  · intro env h1 h2 h3 h4 h5 h6 h7
    have hfull : run_shader env =
        (RunResult.panicked vbufPanicMsg,
         [Action.inotifyInit, Action.addWatch WatchedPath.image,
          Action.addWatch WatchedPath.shader, Action.createEventsLoop,
          Action.createDisplay, Action.loadImage, Action.createTexture,
          Action.createVertexBuffer 6]) := by
      simp [run_shader, init_display, texture_from_path, fullscreen,
            h1, h2, h3, h4, h5, h6, h7]
    refine ⟨by rw [hfull], ?_, ?_⟩ <;>
      simp [mainProgram, mainLoop, hfull] <;> decide
  · intro env it rest hB hi hd hf
    have h : run_shader env =
        (RunResult.panicked finishPanicMsg,
         buildTrace ++ (frameActions ++ [Action.finishFrame])) := by
      rw [run_shader_buildOk env hB, hi]
      simp [renderLoop, hd, hf]
    refine ⟨by rw [h], ?_, ?_⟩ <;> simp [mainProgram, mainLoop, h] <;> decide

/-- Claim C10, witness: both unwrap sites exercised at concrete
inputs. -/
theorem C10_unwrap_failures_witness :
    ((run_shader c10VbufEnv).fst = RunResult.panicked vbufPanicMsg ∧
     (mainProgram 1 (fun _ => c10VbufEnv)).exit = ProcExit.aborted vbufPanicMsg ∧
     ((mainProgram 1 (fun _ => c10VbufEnv)).stderrLines.all
       (fun l => !(errorPrefixed l))) = true) ∧
    ((run_shader c10FinishEnv).fst = RunResult.panicked finishPanicMsg ∧
     (mainProgram 1 (fun _ => c10FinishEnv)).exit =
       ProcExit.aborted finishPanicMsg ∧
     ((mainProgram 1 (fun _ => c10FinishEnv)).stderrLines.all
       (fun l => !(errorPrefixed l))) = true) :=
  ⟨C10_unwrap_failures_abort_unprefixed.1 c10VbufEnv
     rfl rfl rfl rfl rfl rfl rfl,
   C10_unwrap_failures_abort_unprefixed.2 c10FinishEnv finishFailIter []
     ⟨rfl, rfl, rfl, rfl, rfl, rfl, rfl, rfl, rfl, rfl⟩ rfl rfl rfl⟩

end Shadey
